import Mathlib

/-!
Shallow embedding of `src/adapter.rs` of drogue-esp8266: the Adapter socket
state machine, its notification draining, the socket operations
(open/close/connect_tcp/write/read) and the boot-banner wait loop of the
initialization handshake.

Modelling conventions:
* Rust `usize` values (link ids, byte counts) are `Nat`; the subtraction
  `available -= len` is modelled with an explicit underflow check (a Rust
  debug-mode underflow is an abort, i.e. a panic-level condition).
* Array indexing `self.sockets[link_id]` is modelled with an explicit bounds
  check; an out-of-bounds index is a panic-level condition.
* The serial transmitter `tx` is modelled by a flag `txOk` (every byte write
  succeeds iff it is true) plus a log `txItems` of what was written.  The
  wire encoding of commands is external to this file's source (the protocol
  codec), so a whole encoded command (including its CR-LF terminator) is
  logged as one `TxItem.cmd`, and each streamed payload byte as a
  `TxItem.dataByte`.
* The two spsc queues are modelled by the lists of values the Ingress side
  has made available to the consumer; dequeuing pops the head.  The busy
  loop `wait_for_response` on an exhausted response list never returns and
  is modelled by the explicit outcome `stall`.
-/

/-- Modelled from the spec: `Response` lives in `src/protocol.rs`, which is
not part of the sources here; the variant list is the one in spec section 3
(and every variant the adapter matches on appears in `src/adapter.rs`).
Payloads that the adapter never inspects are dropped. -/
inductive Response where
  | ok
  | firmwareInfo
  | ipAddresses
  | wifiConnectionFailure
  | connect (linkId : Nat)
  | closed (linkId : Nat)
  | dataAvailable (linkId : Nat) (len : Nat)
  | readyForData
  | sendOk (len : Nat)
  | dataReceived (bytes : List Nat) (len : Nat)
  deriving DecidableEq, Repr

/-- Stand-in for `drogue_network::SocketAddr`, which the adapter treats as an
opaque value passed through to the protocol codec. -/
abbrev SocketAddr := Nat

/-- `ConnectionType` from `src/protocol.rs` (only TCP is used by the adapter). -/
inductive ConnectionType where
  | tcp
  deriving DecidableEq, Repr

/-- Modelled from the spec: `Command` lives in `src/protocol.rs`; the variant
list is the one in spec section 3.  Only the constructors built in
`src/adapter.rs` carry the fields the adapter supplies. -/
inductive Command where
  | queryFirmwareInfo
  | queryIpAddress
  | joinAp (ssid password : String)
  | startConnection (linkId : Nat) (kind : ConnectionType) (remote : SocketAddr)
  | send (linkId : Nat) (len : Nat)
  | receive (linkId : Nat) (len : Nat)
  deriving DecidableEq, Repr

/-- `SocketState` (adapter.rs lines 36-42). -/
inductive SocketState where
  | halfClosed
  | closed
  | opened    -- `SocketState::Open` in the source; `open` is a Lean keyword
  | connected
  deriving DecidableEq, Repr

/-- `SocketError` (adapter.rs lines 27-34). -/
inductive SocketError where
  | noAvailableSockets
  | socketNotOpen
  | unableToOpen
  | writeError
  | readError
  deriving DecidableEq, Repr

/-- `Socket` (adapter.rs lines 219-222). -/
structure Socket where
  state : SocketState
  available : Nat
  deriving DecidableEq, Repr

/-- `Socket::is_closed` (adapter.rs lines 225-227). -/
def Socket.is_closed (s : Socket) : Bool :=
  s.state = SocketState.closed

/-- One unit written to the serial transmitter: a whole encoded command
(with its CR-LF terminator) or one streamed payload byte. -/
inductive TxItem where
  | cmd (c : Command)
  | dataByte (b : Nat)
  deriving DecidableEq, Repr

/-- The `Adapter` struct (adapter.rs lines 242-250), with the serial
transmitter modelled by `txOk`/`txItems` and the queue consumer ends by the
lists of pending values. -/
structure Adapter where
  txOk : Bool
  txItems : List TxItem
  responses : List Response
  notifications : List Response
  sockets : List Socket
  deriving DecidableEq, Repr

/-- Outcome of a socket operation.  `ok`, `wouldBlock` (`nb::Error::WouldBlock`)
and `err` (`nb::Error::Other`/`Err`) carry the adapter state after the call;
`panic` is a panic-level condition (out-of-bounds index or usize underflow);
`stall` is the busy-wait loop `wait_for_response` never returning because the
response queue stays empty. -/
inductive Outcome (α : Type) where
  | ok (val : α) (a : Adapter)
  | wouldBlock (a : Adapter)
  | err (e : SocketError) (a : Adapter)
  | panic
  | stall
  deriving DecidableEq, Repr

/-- `initialize_sockets` (adapter.rs lines 139-162): five slots, all
`Closed` with `available == 0`. -/
def initSockets : List Socket :=
  [⟨SocketState.closed, 0⟩, ⟨SocketState.closed, 0⟩, ⟨SocketState.closed, 0⟩,
   ⟨SocketState.closed, 0⟩, ⟨SocketState.closed, 0⟩]

/-- One iteration of the `process_notifications` loop body (adapter.rs lines
345-369), acting on the socket table; `none` is a panic (out-of-bounds
`link_id`). -/
def procNote (sockets : List Socket) (r : Response) : Option (List Socket) :=
  match r with
  | Response.dataAvailable linkId len =>
      if h : linkId < sockets.length then
        let s := sockets.get ⟨linkId, h⟩
        some (sockets.set linkId { s with available := s.available + len })
      else none
  | Response.connect _ => some sockets
  | Response.closed linkId =>
      if h : linkId < sockets.length then
        let s := sockets.get ⟨linkId, h⟩
        match s.state with
        | SocketState.halfClosed =>
            some (sockets.set linkId { s with state := SocketState.closed })
        | SocketState.opened =>
            some (sockets.set linkId { s with state := SocketState.halfClosed })
        | SocketState.connected =>
            some (sockets.set linkId { s with state := SocketState.halfClosed })
        | SocketState.closed => some sockets
      else none
  | _ => some sockets

/-- The `while let Some(..) = dequeue()` loop of `process_notifications`
(adapter.rs lines 344-370) over the pending notification list. -/
def drainNotes (sockets : List Socket) : List Response → Option (List Socket)
  | [] => some sockets
  | r :: rest =>
      match procNote sockets r with
      | some s2 => drainNotes s2 rest
      | none => none

/-- `Adapter::process_notifications` (adapter.rs lines 343-371): drains the
notification queue into the socket table; `none` is a panic. -/
def processNotifications (a : Adapter) : Option Adapter :=
  match drainNotes a.sockets a.notifications with
  | some s => some { a with sockets := s, notifications := [] }
  | none => none

/-- `Adapter::wait_for_response` (adapter.rs lines 271-284): pops the next
queued response; an empty queue means the busy loop never returns (`none`). -/
def waitForResponse (a : Adapter) : Option (Response × Adapter) :=
  match a.responses with
  | [] => none
  | r :: rest => some (r, { a with responses := rest })

/-- Result of `Adapter::send` (adapter.rs lines 256-269). -/
inductive SendResult where
  | got (r : Response) (a : Adapter)
  | sendErr (a : Adapter)   -- a transmitter byte write failed (`AdapterError::WriteError`)
  | stalled                 -- response queue stayed empty
  deriving DecidableEq, Repr

/-- `Adapter::send` (adapter.rs lines 256-269): writes the encoded command
(plus CR-LF) to the transmitter, then waits for the next queued response. -/
def Adapter.send (a : Adapter) (c : Command) : SendResult :=
  if a.txOk then
    let a1 := { a with txItems := a.txItems ++ [TxItem.cmd c] }
    match waitForResponse a1 with
    | none => SendResult.stalled
    | some (r, a2) => SendResult.got r a2
  else
    SendResult.sendErr a

/-- The scan of `Adapter::open` (adapter.rs lines 374-381):
`sockets.iter_mut().enumerate().find(|(_, e)| e.is_closed())`, marking the
found slot `Open`; returns the index and the updated table. -/
def openScan : List Socket → Option (Nat × List Socket)
  | [] => none
  | s :: rest =>
      if s.is_closed then
        some (0, { s with state := SocketState.opened } :: rest)
      else
        match openScan rest with
        | some (i, l) => some (i + 1, s :: l)
        | none => none

/-- `Adapter::open` (adapter.rs lines 373-385). -/
def Adapter.openSocket (a : Adapter) : Outcome Nat :=
  match openScan a.sockets with
  | some (i, l) => Outcome.ok i { a with sockets := l }
  | none => Outcome.err SocketError.noAvailableSockets a

/-- `Adapter::close` (adapter.rs lines 387-390): unconditionally forces the
slot to `Closed` (note: `available` is left untouched by the source). -/
def Adapter.close (a : Adapter) (linkId : Nat) : Outcome Unit :=
  if h : linkId < a.sockets.length then
    let s := a.sockets.get ⟨linkId, h⟩
    Outcome.ok () { a with sockets := a.sockets.set linkId { s with state := SocketState.closed } }
  else Outcome.panic

/-- `Adapter::connect_tcp` (adapter.rs lines 392-406). -/
def Adapter.connectTcp (a : Adapter) (linkId : Nat) (remote : SocketAddr) : Outcome Unit :=
  match a.send (Command.startConnection linkId ConnectionType.tcp remote) with
  | SendResult.stalled => Outcome.stall
  | SendResult.sendErr a1 => Outcome.err SocketError.unableToOpen a1
  | SendResult.got r a1 =>
      match r with
      | Response.connect _ =>
          if h : linkId < a1.sockets.length then
            let s := a1.sockets.get ⟨linkId, h⟩
            Outcome.ok () { a1 with sockets := a1.sockets.set linkId { s with state := SocketState.connected } }
          else Outcome.panic
      | _ => Outcome.err SocketError.unableToOpen a1

/-- `Adapter::write` (adapter.rs lines 408-440). -/
def Adapter.write (a : Adapter) (linkId : Nat) (buffer : List Nat) : Outcome Nat :=
  match processNotifications a with
  | none => Outcome.panic
  | some a1 =>
      match a1.send (Command.send linkId buffer.length) with
      | SendResult.stalled => Outcome.stall
      | SendResult.sendErr a2 => Outcome.err SocketError.writeError a2
      | SendResult.got r a2 =>
          match r with
          | Response.ok =>
              match waitForResponse a2 with
              | none => Outcome.stall
              | some (r2, a3) =>
                  match r2 with
                  | Response.readyForData =>
                      -- stream the payload byte by byte (lines 425-428);
                      -- a byte-write failure is `WriteError`, but `send`
                      -- already succeeded, so `txOk` is known true here
                      if a3.txOk then
                        let a4 := { a3 with txItems := a3.txItems ++ buffer.map TxItem.dataByte }
                        match waitForResponse a4 with
                        | none => Outcome.stall
                        | some (r3, a5) =>
                            match r3 with
                            | Response.sendOk len => Outcome.ok len a5
                            | _ => Outcome.err SocketError.writeError a5
                      else Outcome.err SocketError.writeError a3
                  | _ => Outcome.err SocketError.writeError a3
          | _ => Outcome.err SocketError.writeError a2

/-- The copy loop of `Adapter::read` (adapter.rs lines 473-475):
`for (i, b) in inbound[0..len].iter().enumerate() { buffer[i] = *b; }`,
writing `src` into successive positions of `dst` from index 0; `none` is the
panic of an out-of-range `buffer[i]`. -/
def storeBytes : List Nat → List Nat → Option (List Nat)
  | dst, [] => some dst
  | [], _ :: _ => none
  | _ :: dst, b :: src =>
      match storeBytes dst src with
      | some t => some (b :: t)
      | none => none

/-- Verification-side predicate (not source code): a queued notification only
touches socket slots below `n`, so the `self.sockets[link_id]` indexing in
`process_notifications` stays in bounds. -/
def noteInRange (n : Nat) : Response → Bool
  | Response.dataAvailable linkId _ => decide (linkId < n)
  | Response.closed linkId => decide (linkId < n)
  | _ => true

/-- Verification-side predicate (not source code): every pending notification
of the adapter is in range for its socket table. -/
def notesOk (a : Adapter) : Bool :=
  a.notifications.all (noteInRange a.sockets.length)

/-- `Adapter::read` (adapter.rs lines 442-483).  Returns the length together
with the updated caller buffer (the `&mut [u8]` slice, modelled
functionally). -/
def Adapter.read (a : Adapter) (linkId : Nat) (buffer : List Nat) : Outcome (Nat × List Nat) :=
  match processNotifications a with
  | none => Outcome.panic
  | some a1 =>
      if h : linkId < a1.sockets.length then
        let s := a1.sockets.get ⟨linkId, h⟩
        if s.state = SocketState.closed then
          Outcome.err SocketError.socketNotOpen a1
        else if s.state = SocketState.halfClosed ∧ s.available = 0 then
          Outcome.err SocketError.socketNotOpen a1
        else if s.available = 0 then
          Outcome.wouldBlock a1
        else
          match a1.send (Command.receive linkId buffer.length) with
          | SendResult.stalled => Outcome.stall
          | SendResult.sendErr a2 => Outcome.err SocketError.readError a2
          | SendResult.got r a2 =>
              match r with
              | Response.dataReceived inbound len =>
                  -- `inbound[0..len]` panics when `len > inbound.len()`
                  if len ≤ inbound.length then
                    match storeBytes buffer (inbound.take len) with
                    | some buffer2 =>
                        -- `available -= len`: usize underflow is a
                        -- panic-level condition (debug abort)
                        if hs : linkId < a2.sockets.length then
                          let s2 := a2.sockets.get ⟨linkId, hs⟩
                          if len ≤ s2.available then
                            Outcome.ok (len, buffer2)
                              { a2 with sockets := a2.sockets.set linkId { s2 with available := s2.available - len } }
                          else Outcome.panic
                        else Outcome.panic
                    | none => Outcome.panic
                  else Outcome.panic
              | _ => Outcome.err SocketError.readError a2
      else Outcome.panic

/-- Verification-side predicate (not source code): if the next queued
response is a `DataReceived(inbound, len)` reply (the one `read` would
consume), its length fits the slice `inbound[0..len]`, the caller's buffer,
and the slot's post-drain `available` counter, so none of the panic-level
conditions of `read`'s success path can fire. -/
def readReplySafe (a : Adapter) (linkId : Nat) (buffer : List Nat) : Bool :=
  match a.responses with
  | Response.dataReceived inbound len :: _ =>
      decide (len ≤ inbound.length) && decide (len ≤ buffer.length) &&
      (match drainNotes a.sockets a.notifications with
       | some s =>
           match s.get? linkId with
           | some sock => decide (len ≤ sock.available)
           | none => true
       | none => true)
  | _ => true

/-- An adapter as built by `build_adapter_and_ingress` (adapter.rs lines
116-137), with given queue contents and a healthy transmitter. -/
def freshAdapter (responses notifications : List Response) : Adapter :=
  { txOk := true, txItems := [], responses := responses,
    notifications := notifications, sockets := initSockets }

/-! Concrete execution trace used for the stale-`available` claim: a fresh
adapter with a pending `DataAvailable{link_id: 0, len: 5}` notification and a
single queued (non-`DataReceived`) reply. -/

def c1A0 : Adapter := freshAdapter [Response.ok] [Response.dataAvailable 0 5]

/-- `c1A0` after `open()` reserved slot 0. -/
def c1A1 : Adapter :=
  { c1A0 with sockets :=
      [⟨SocketState.opened, 0⟩, ⟨SocketState.closed, 0⟩, ⟨SocketState.closed, 0⟩,
       ⟨SocketState.closed, 0⟩, ⟨SocketState.closed, 0⟩] }

/-- `c1A1` after `read(0, ..)` drained the notification (slot 0 now has
`available == 5`), issued a `Receive` command and got the mismatched `Ok`
reply. -/
def c1A2 : Adapter :=
  { txOk := true,
    txItems := [TxItem.cmd (Command.receive 0 4)],
    responses := [], notifications := [],
    sockets :=
      [⟨SocketState.opened, 5⟩, ⟨SocketState.closed, 0⟩, ⟨SocketState.closed, 0⟩,
       ⟨SocketState.closed, 0⟩, ⟨SocketState.closed, 0⟩] }

/-- `c1A2` after `close(0)`: slot 0 is `Closed` but still has
`available == 5`. -/
def c1A3 : Adapter :=
  { c1A2 with sockets :=
      [⟨SocketState.closed, 5⟩, ⟨SocketState.closed, 0⟩, ⟨SocketState.closed, 0⟩,
       ⟨SocketState.closed, 0⟩, ⟨SocketState.closed, 0⟩] }

/-! Concrete adapters used for the five-successive-`open()` claim. -/

def c8F0 : Adapter := freshAdapter [] []

def c8Sockets (k : Nat) : List Socket :=
  (List.range 5).map fun i =>
    if i < k then ⟨SocketState.opened, 0⟩ else ⟨SocketState.closed, 0⟩

def c8F (k : Nat) : Adapter := { c8F0 with sockets := c8Sockets k }

/-! Concrete input used for the `read` round-trip claim as literally stated
(fresh slot 2, i.e. `Closed`): ten payload bytes and a 12-byte caller
buffer. -/

def c7Buf : List Nat := [1, 2, 3, 4, 5, 6, 7, 8, 9, 10]

def c7Caller : List Nat := [0, 0, 0, 0, 0, 0, 0, 0, 0, 0, 0, 0]

def c7Fresh : Adapter :=
  freshAdapter [Response.dataReceived c7Buf 10] [Response.dataAvailable 2 10]

/-- `c7Fresh` after `read(2, ..)` drained the notification and hit the
`Closed` precondition. -/
def c7Drained : Adapter :=
  { c7Fresh with
    notifications := []
    sockets :=
      [⟨SocketState.closed, 0⟩, ⟨SocketState.closed, 0⟩, ⟨SocketState.closed, 10⟩,
       ⟨SocketState.closed, 0⟩, ⟨SocketState.closed, 0⟩] }

/-! The boot-banner wait loop of `initialize` (adapter.rs lines 82-111),
run before any queue exists.  The non-blocking receiver is modelled by the
finite list of read results it will produce. -/

/-- One result of `rx.read()` in the banner loop: a byte, `nb::Error::WouldBlock`,
or any other read error. -/
inductive RxEvent where
  | byte (b : Nat)
  | wouldBlock
  | fail
  deriving DecidableEq, Repr

/-- Outcome of the banner loop. -/
inductive BannerOut where
  | ready (restEvents : List RxEvent)  -- banner matched; handshake continues
  | failedInit                         -- `Err(AdapterError::UnableToInitialize)`
  | spin                               -- events exhausted, loop still spinning
  | panic                              -- `buffer[pos]` out of bounds (pos ≥ 1024)
  deriving DecidableEq, Repr

/-- The literal boot banner `b"ready\r\n"` (adapter.rs line 71). -/
def READY : List Nat := [114, 101, 97, 100, 121, 13, 10]

/-- The `loop` of `initialize` (adapter.rs lines 82-111).  `acc` is the
prefix of the 1024-byte scratch buffer written so far (its length is the
cursor `pos`), `counter` the failure counter. -/
def bannerRun (acc : List Nat) (counter : Nat) : List RxEvent → BannerOut
  | [] => BannerOut.spin
  | e :: rest =>
      match e with
      | RxEvent.byte c =>
          if acc.length ≥ 1024 then BannerOut.panic
          else
            let acc2 := acc ++ [c]
            if acc2.length ≥ READY.length ∧ acc2.drop (acc2.length - READY.length) = READY then
              BannerOut.ready rest
            else
              bannerRun acc2 counter rest
      | RxEvent.wouldBlock => bannerRun acc counter rest
      | RxEvent.fail =>
          if counter > 10000 then BannerOut.failedInit
          else bannerRun acc (counter + 1) rest

/-! ### Basic lemmas about notification draining -/

theorem procNote_length {sockets s' : List Socket} {r : Response}
    (h : procNote sockets r = some s') : s'.length = sockets.length := by
  cases r <;> simp only [procNote] at h
  case closed linkId =>
    split at h
    · split at h <;> (cases h; simp)
    · cases h
  case dataAvailable linkId len =>
    split at h
    · cases h; simp
    · cases h
  all_goals (cases h; rfl)

theorem procNote_some {sockets : List Socket} {r : Response}
    (h : noteInRange sockets.length r = true) : ∃ s', procNote sockets r = some s' := by
  cases r <;> simp only [procNote]
  case closed linkId =>
    simp only [noteInRange, decide_eq_true_eq] at h
    rw [dif_pos h]
    split <;> exact ⟨_, rfl⟩
  case dataAvailable linkId len =>
    simp only [noteInRange, decide_eq_true_eq] at h
    rw [dif_pos h]
    exact ⟨_, rfl⟩
  all_goals exact ⟨_, rfl⟩

theorem drainNotes_length {notes : List Response} :
    ∀ {sockets s' : List Socket}, drainNotes sockets notes = some s' →
      s'.length = sockets.length := by
  induction notes with
  | nil => intro sockets s' h; cases h; rfl
  | cons r rest ih =>
      intro sockets s' h
      simp only [drainNotes] at h
      cases hp : procNote sockets r with
      | none => rw [hp] at h; cases h
      | some s2 =>
          rw [hp] at h
          exact (ih h).trans (procNote_length hp)

theorem drainNotes_some {notes : List Response} :
    ∀ {sockets : List Socket},
      notes.all (noteInRange sockets.length) = true →
      ∃ s', drainNotes sockets notes = some s' := by
  induction notes with
  | nil => intro sockets _; exact ⟨sockets, rfl⟩
  | cons r rest ih =>
      intro sockets h
      simp only [List.all_cons, Bool.and_eq_true] at h
      obtain ⟨s2, hs2⟩ := procNote_some h.1
      have hlen : s2.length = sockets.length := procNote_length hs2
      obtain ⟨s', hs'⟩ := ih (by rw [hlen]; exact h.2)
      exact ⟨s', by simp only [drainNotes, hs2, hs']⟩

theorem processNotifications_eq {a a1 : Adapter}
    (h : processNotifications a = some a1) :
    drainNotes a.sockets a.notifications = some a1.sockets ∧
      a1 = { a with sockets := a1.sockets, notifications := [] } := by
  simp only [processNotifications] at h
  cases hd : drainNotes a.sockets a.notifications with
  | none => rw [hd] at h; cases h
  | some s => rw [hd] at h; cases h; exact ⟨rfl, rfl⟩

/-! ### Lemmas about `send` and the copy loop -/

theorem send_noTx {a : Adapter} {c : Command} (h : a.txOk = false) :
    a.send c = SendResult.sendErr a := by
  simp [Adapter.send, h]

theorem send_stall {a : Adapter} {c : Command} (h1 : a.txOk = true)
    (h2 : a.responses = []) : a.send c = SendResult.stalled := by
  simp [Adapter.send, h1, waitForResponse, h2]

theorem send_got {a : Adapter} {c : Command} {r : Response} {rest : List Response}
    (h1 : a.txOk = true) (h2 : a.responses = r :: rest) :
    a.send c = SendResult.got r
      { a with responses := rest, txItems := a.txItems ++ [TxItem.cmd c] } := by
  simp [Adapter.send, h1, waitForResponse, h2]

theorem storeBytes_eq {src : List Nat} : ∀ {dst : List Nat},
    src.length ≤ dst.length →
      storeBytes dst src = some (src ++ dst.drop src.length) := by
  induction src with
  | nil => intro dst _; cases dst <;> simp [storeBytes]
  | cons b src ih =>
      intro dst h
      cases dst with
      | nil => simp at h
      | cons d dst =>
          simp only [List.length_cons, Nat.succ_le_succ_iff] at h
          simp [storeBytes, ih h]

/-! ### Scenario lemmas for `write` -/

theorem write_noTx {a a1 : Adapter} {linkId : Nat} {buffer : List Nat}
    (hpn : processNotifications a = some a1) (htx : a1.txOk = false) :
    a.write linkId buffer = Outcome.err SocketError.writeError a1 := by
  simp only [Adapter.write, hpn, send_noTx htx]

theorem write_stall1 {a a1 : Adapter} {linkId : Nat} {buffer : List Nat}
    (hpn : processNotifications a = some a1) (htx : a1.txOk = true)
    (hr : a1.responses = []) :
    a.write linkId buffer = Outcome.stall := by
  simp only [Adapter.write, hpn, send_stall htx hr]

theorem write_step1_dev {a a1 : Adapter} {linkId : Nat} {buffer : List Nat}
    {r : Response} {rest : List Response}
    (hpn : processNotifications a = some a1) (htx : a1.txOk = true)
    (hr : a1.responses = r :: rest) (hne : r ≠ Response.ok) :
    a.write linkId buffer = Outcome.err SocketError.writeError
      { a1 with responses := rest,
                txItems := a1.txItems ++ [TxItem.cmd (Command.send linkId buffer.length)] } := by
  simp only [Adapter.write, hpn, send_got htx hr]

theorem write_stall2 {a a1 : Adapter} {linkId : Nat} {buffer : List Nat}
    (hpn : processNotifications a = some a1) (htx : a1.txOk = true)
    (hr : a1.responses = [Response.ok]) :
    a.write linkId buffer = Outcome.stall := by
  simp only [Adapter.write, hpn, send_got htx hr, waitForResponse]

theorem write_step2_dev {a a1 : Adapter} {linkId : Nat} {buffer : List Nat}
    {r2 : Response} {rest : List Response}
    (hpn : processNotifications a = some a1) (htx : a1.txOk = true)
    (hr : a1.responses = Response.ok :: r2 :: rest) (hne : r2 ≠ Response.readyForData) :
    a.write linkId buffer = Outcome.err SocketError.writeError
      { a1 with responses := rest,
                txItems := a1.txItems ++ [TxItem.cmd (Command.send linkId buffer.length)] } := by
  simp only [Adapter.write, hpn, send_got htx hr, waitForResponse]

theorem write_stall3 {a a1 : Adapter} {linkId : Nat} {buffer : List Nat}
    (hpn : processNotifications a = some a1) (htx : a1.txOk = true)
    (hr : a1.responses = [Response.ok, Response.readyForData]) :
    a.write linkId buffer = Outcome.stall := by
  simp only [Adapter.write, hpn, send_got htx hr, waitForResponse, htx, if_true]

theorem write_step3_dev {a a1 : Adapter} {linkId : Nat} {buffer : List Nat}
    {r3 : Response} {rest : List Response}
    (hpn : processNotifications a = some a1) (htx : a1.txOk = true)
    (hr : a1.responses = Response.ok :: Response.readyForData :: r3 :: rest)
    (hne : ∀ m, r3 ≠ Response.sendOk m) :
    a.write linkId buffer = Outcome.err SocketError.writeError
      { a1 with responses := rest,
                txItems := (a1.txItems ++ [TxItem.cmd (Command.send linkId buffer.length)])
                  ++ buffer.map TxItem.dataByte } := by
  simp only [Adapter.write, hpn, send_got htx hr, waitForResponse, htx, if_true]

theorem write_full_ok {a a1 : Adapter} {linkId n : Nat} {buffer : List Nat}
    {rest : List Response}
    (hpn : processNotifications a = some a1) (htx : a1.txOk = true)
    (hr : a1.responses = Response.ok :: Response.readyForData :: Response.sendOk n :: rest) :
    a.write linkId buffer = Outcome.ok n
      { a1 with responses := rest,
                txItems := (a1.txItems ++ [TxItem.cmd (Command.send linkId buffer.length)])
                  ++ buffer.map TxItem.dataByte } := by
  simp only [Adapter.write, hpn, send_got htx hr, waitForResponse, htx, if_true]

/-! ### Scenario lemmas for `read` -/

theorem read_closed {a a1 : Adapter} {linkId : Nat} {buffer : List Nat}
    (hpn : processNotifications a = some a1) (h5 : linkId < a1.sockets.length)
    (hst : a1.sockets[linkId].state = SocketState.closed) :
    a.read linkId buffer = Outcome.err SocketError.socketNotOpen a1 := by
  simp [Adapter.read, hpn, dif_pos h5, hst]

theorem read_halfClosed0 {a a1 : Adapter} {linkId : Nat} {buffer : List Nat}
    (hpn : processNotifications a = some a1) (h5 : linkId < a1.sockets.length)
    (hst : a1.sockets[linkId].state = SocketState.halfClosed)
    (hav : a1.sockets[linkId].available = 0) :
    a.read linkId buffer = Outcome.err SocketError.socketNotOpen a1 := by
  simp [Adapter.read, hpn, dif_pos h5, hst, hav]

theorem read_wouldBlock {a a1 : Adapter} {linkId : Nat} {buffer : List Nat}
    (hpn : processNotifications a = some a1) (h5 : linkId < a1.sockets.length)
    (hst : a1.sockets[linkId].state = SocketState.opened ∨
           a1.sockets[linkId].state = SocketState.connected)
    (hav : a1.sockets[linkId].available = 0) :
    a.read linkId buffer = Outcome.wouldBlock a1 := by
  rcases hst with hst | hst <;>
    simp [Adapter.read, hpn, dif_pos h5, hst, hav]

theorem read_noTx {a a1 : Adapter} {linkId : Nat} {buffer : List Nat}
    (hpn : processNotifications a = some a1) (h5 : linkId < a1.sockets.length)
    (hst : a1.sockets[linkId].state ≠ SocketState.closed)
    (hav : a1.sockets[linkId].available ≠ 0)
    (htx : a1.txOk = false) :
    a.read linkId buffer = Outcome.err SocketError.readError a1 := by
  simp [Adapter.read, hpn, dif_pos h5, hst, hav, send_noTx htx]

theorem read_stall {a a1 : Adapter} {linkId : Nat} {buffer : List Nat}
    (hpn : processNotifications a = some a1) (h5 : linkId < a1.sockets.length)
    (hst : a1.sockets[linkId].state ≠ SocketState.closed)
    (hav : a1.sockets[linkId].available ≠ 0)
    (htx : a1.txOk = true) (hr : a1.responses = []) :
    a.read linkId buffer = Outcome.stall := by
  simp [Adapter.read, hpn, dif_pos h5, hst, hav, send_stall htx hr]

theorem read_other {a a1 : Adapter} {linkId : Nat} {buffer : List Nat}
    {r : Response} {rest : List Response}
    (hpn : processNotifications a = some a1) (h5 : linkId < a1.sockets.length)
    (hst : a1.sockets[linkId].state ≠ SocketState.closed)
    (hav : a1.sockets[linkId].available ≠ 0)
    (htx : a1.txOk = true) (hr : a1.responses = r :: rest)
    (hne : ∀ bs n, r ≠ Response.dataReceived bs n) :
    a.read linkId buffer = Outcome.err SocketError.readError
      { a1 with responses := rest,
                txItems := a1.txItems ++ [TxItem.cmd (Command.receive linkId buffer.length)] } := by
  simp only [Adapter.read, hpn, dif_pos h5, send_got htx hr]
  cases r <;>
    first
      | (exact absurd rfl (hne _ _))
      | simp [hst, hav]

theorem read_data_ok {a a1 : Adapter} {linkId : Nat} {buffer : List Nat}
    {inbound : List Nat} {len : Nat} {rest : List Response}
    (hpn : processNotifications a = some a1) (h5 : linkId < a1.sockets.length)
    (hst : a1.sockets[linkId].state ≠ SocketState.closed)
    (hav : a1.sockets[linkId].available ≠ 0)
    (htx : a1.txOk = true)
    (hr : a1.responses = Response.dataReceived inbound len :: rest)
    (hl1 : len ≤ inbound.length) (hl2 : len ≤ buffer.length)
    (hl3 : len ≤ a1.sockets[linkId].available) :
    a.read linkId buffer = Outcome.ok (len, inbound.take len ++ buffer.drop len)
      { a1 with responses := rest,
                txItems := a1.txItems ++ [TxItem.cmd (Command.receive linkId buffer.length)],
                sockets := a1.sockets.set linkId
                  { a1.sockets[linkId] with
                      available := a1.sockets[linkId].available - len } } := by
  have hsb : storeBytes buffer (inbound.take len) =
      some (inbound.take len ++ buffer.drop len) := by
    have hlen : (inbound.take len).length = len := by
      simp [List.length_take, Nat.min_eq_left hl1]
    rw [storeBytes_eq (by rw [hlen]; exact hl2), hlen]
  simp [Adapter.read, hpn, dif_pos h5, hst, hav, send_got htx hr, hl1, hsb, hl3]

/-! ### Scenario lemmas for `connect_tcp`, `open`, `close` -/

theorem connectTcp_noTx {a : Adapter} {linkId : Nat} {remote : SocketAddr}
    (htx : a.txOk = false) :
    a.connectTcp linkId remote = Outcome.err SocketError.unableToOpen a := by
  simp only [Adapter.connectTcp, send_noTx htx]

theorem connectTcp_stall {a : Adapter} {linkId : Nat} {remote : SocketAddr}
    (htx : a.txOk = true) (hr : a.responses = []) :
    a.connectTcp linkId remote = Outcome.stall := by
  simp only [Adapter.connectTcp, send_stall htx hr]

theorem connectTcp_connect {a : Adapter} {linkId : Nat} {remote : SocketAddr}
    {id : Nat} {rest : List Response}
    (h5 : linkId < a.sockets.length)
    (htx : a.txOk = true) (hr : a.responses = Response.connect id :: rest) :
    a.connectTcp linkId remote = Outcome.ok ()
      { a with responses := rest,
               txItems := a.txItems ++
                 [TxItem.cmd (Command.startConnection linkId ConnectionType.tcp remote)],
               sockets := a.sockets.set linkId
                 { a.sockets[linkId] with state := SocketState.connected } } := by
  simp [Adapter.connectTcp, send_got htx hr, dif_pos h5]

theorem connectTcp_other {a : Adapter} {linkId : Nat} {remote : SocketAddr}
    {r : Response} {rest : List Response}
    (htx : a.txOk = true) (hr : a.responses = r :: rest)
    (hne : ∀ id, r ≠ Response.connect id) :
    a.connectTcp linkId remote = Outcome.err SocketError.unableToOpen
      { a with responses := rest,
               txItems := a.txItems ++
                 [TxItem.cmd (Command.startConnection linkId ConnectionType.tcp remote)] } := by
  simp only [Adapter.connectTcp, send_got htx hr]

theorem openSocket_no_panic {a : Adapter} : a.openSocket ≠ Outcome.panic := by
  rcases h : openScan a.sockets with _ | ⟨i, l⟩ <;>
    simp [Adapter.openSocket, h]

theorem close_inBounds {a : Adapter} {linkId : Nat}
    (h5 : linkId < a.sockets.length) :
    a.close linkId = Outcome.ok ()
      { a with sockets := a.sockets.set linkId
                 { a.sockets[linkId] with state := SocketState.closed } } := by
  simp [Adapter.close, dif_pos h5]

/-! ### Lemma for the banner loop -/

theorem bannerRun_noFail : ∀ {events : List RxEvent},
    (∀ e ∈ events, e ≠ RxEvent.fail) →
      ∀ {acc : List Nat} {counter : Nat},
        bannerRun acc counter events ≠ BannerOut.failedInit := by
  intro events
  induction events with
  | nil => intro _ acc counter; simp [bannerRun]
  | cons e rest ih =>
      intro h acc counter
      have he : e ≠ RxEvent.fail := h e (List.mem_cons_self e rest)
      have hrest : ∀ x ∈ rest, x ≠ RxEvent.fail :=
        fun x hx => h x (List.mem_cons_of_mem e hx)
      cases e with
      | byte c =>
          simp only [bannerRun]
          split
          · simp
          · split
            · simp
            · exact ih hrest
      | wouldBlock =>
          simp only [bannerRun]
          exact ih hrest
      | fail => exact absurd rfl he

theorem processNotifications_some {a : Adapter} (h : notesOk a = true) :
    ∃ a1, processNotifications a = some a1 := by
  obtain ⟨s', hs'⟩ := drainNotes_some (by simpa [notesOk] using h)
  refine ⟨{ a with sockets := s', notifications := [] }, ?_⟩
  simp [processNotifications, hs']

/-! ### Claim theorems -/

/-- C1: the claim states that every transition of a slot to `Closed` leaves
`available = 0`, so that `available > 0` only in the Open/Connected/HalfClosed
states of reachable adapters.  The code violates this: on the reachable trace
`open()`; `read(0, ..)` (which folds a pending `DataAvailable{0, 5}`
notification into slot 0 and then fails on a mismatched reply); `close(0)`,
the final state has slot 0 `Closed` with `available = 5`.  `close` (adapter.rs
lines 387-390) sets only `state`, never `available`, and the
`HalfClosed → Closed` arm of `process_notifications` (lines 354-357) does the
same. -/
theorem C1_close_keeps_stale_available :
    Adapter.openSocket c1A0 = Outcome.ok 0 c1A1 ∧
    Adapter.read c1A1 0 [0, 0, 0, 0] = Outcome.err SocketError.readError c1A2 ∧
    Adapter.close c1A2 0 = Outcome.ok () c1A3 ∧
    c1A3.sockets.get? 0 = some ⟨SocketState.closed, 5⟩ := by
  refine ⟨by decide, by decide, by decide, by decide⟩

/-- C6: processing a `Closed(link_id)` notification applies exactly the
close-transition table to the slot: `HalfClosed → Closed`,
`{Open, Connected} → HalfClosed`, `Closed → Closed` (no-op); and two `Closed`
notifications in a row starting from `Open` or `Connected` leave the slot
`Closed` (with `available` untouched throughout). -/
theorem C6_closed_transition_table (sockets : List Socket) (linkId : Nat)
    (h : linkId < sockets.length) :
    (sockets[linkId].state = SocketState.halfClosed →
        procNote sockets (Response.closed linkId) =
          some (sockets.set linkId { sockets[linkId] with state := SocketState.closed })) ∧
    ((sockets[linkId].state = SocketState.opened ∨
      sockets[linkId].state = SocketState.connected) →
        procNote sockets (Response.closed linkId) =
          some (sockets.set linkId { sockets[linkId] with state := SocketState.halfClosed })) ∧
    (sockets[linkId].state = SocketState.closed →
        procNote sockets (Response.closed linkId) = some sockets) ∧
    ((sockets[linkId].state = SocketState.opened ∨
      sockets[linkId].state = SocketState.connected) →
        drainNotes sockets [Response.closed linkId, Response.closed linkId] =
          some (sockets.set linkId { sockets[linkId] with state := SocketState.closed })) := by
  refine ⟨fun hst => ?_, fun hst => ?_, fun hst => ?_, fun hst => ?_⟩
  · simp [procNote, dif_pos h, hst]
  · rcases hst with hst | hst <;> simp [procNote, dif_pos h, hst]
  · simp [procNote, dif_pos h, hst]
  · have h2 : linkId < (sockets.set linkId
        { sockets[linkId] with state := SocketState.halfClosed }).length := by
      simpa using h
    have hg : (sockets.set linkId
        { sockets[linkId] with state := SocketState.halfClosed })[linkId] =
        { sockets[linkId] with state := SocketState.halfClosed } :=
      List.getElem_set_self h2
    rcases hst with hst | hst <;>
      simp [drainNotes, procNote, dif_pos h, dif_pos h2, hst, hg, List.set_set]

/-- C8: on a freshly constructed Adapter (all five slots `Closed` with zero
available bytes), five successive `open()` calls return 0, 1, 2, 3, 4 in
order, each marking the returned slot `Open` and writing nothing to the
transport, and a sixth call fails with `NoAvailableSockets`. -/
theorem C8_open_five_then_fail :
    c8F0.sockets = initSockets ∧
    Adapter.openSocket c8F0 = Outcome.ok 0 (c8F 1) ∧
    Adapter.openSocket (c8F 1) = Outcome.ok 1 (c8F 2) ∧
    Adapter.openSocket (c8F 2) = Outcome.ok 2 (c8F 3) ∧
    Adapter.openSocket (c8F 3) = Outcome.ok 3 (c8F 4) ∧
    Adapter.openSocket (c8F 4) = Outcome.ok 4 (c8F 5) ∧
    Adapter.openSocket (c8F 5) = Outcome.err SocketError.noAvailableSockets (c8F 5) ∧
    (c8F 1).txItems = [] ∧ (c8F 2).txItems = [] ∧ (c8F 3).txItems = [] ∧
    (c8F 4).txItems = [] ∧ (c8F 5).txItems = [] := by
  refine ⟨by decide, by decide, by decide, by decide, by decide, by decide,
    by decide, rfl, rfl, rfl, rfl, rfl⟩

/-- C10: `connect_tcp` never compares the link id carried in the `Connect`
reply with the requested `link_id`: for any in-range `link_id` and ANY reply
`Connect(id)` — `id` arbitrary, in particular different from `link_id` — the
call succeeds and marks slot `link_id` `Connected`. -/
theorem C10_connect_reply_id_ignored (a : Adapter) (linkId id : Nat)
    (remote : SocketAddr) (rest : List Response)
    (h5 : linkId < a.sockets.length) (htx : a.txOk = true)
    (hr : a.responses = Response.connect id :: rest) :
    a.connectTcp linkId remote = Outcome.ok ()
      { a with responses := rest,
               txItems := a.txItems ++
                 [TxItem.cmd (Command.startConnection linkId ConnectionType.tcp remote)],
               sockets := a.sockets.set linkId
                 { a.sockets[linkId] with state := SocketState.connected } } :=
  connectTcp_connect h5 htx hr

/-- Witness for C10 at a concrete input: requested link id 1, reply
`Connect(4)` — the mismatched id is ignored and slot 1 is marked
`Connected`. -/
theorem C10_witness :
    Adapter.connectTcp (freshAdapter [Response.connect 4] []) 1 7 = Outcome.ok ()
      ⟨true, [TxItem.cmd (Command.startConnection 1 ConnectionType.tcp 7)], [], [],
       [⟨SocketState.closed, 0⟩, ⟨SocketState.connected, 0⟩, ⟨SocketState.closed, 0⟩,
        ⟨SocketState.closed, 0⟩, ⟨SocketState.closed, 0⟩]⟩ := by
  have h := C10_connect_reply_id_ignored (freshAdapter [Response.connect 4] [])
    1 4 7 [] (by decide) rfl rfl
  exact h.trans (by decide)

/-- C5: for an in-range `link_id`, `connect_tcp` succeeds — and transitions
the slot to `Connected` — exactly when the observed reply to the
`StartConnection` command is a `Connect` variant; on any other outcome
(a non-`Connect` reply, or a transmitter failure while sending) it returns
`UnableToOpen` and leaves the socket table unchanged. -/
theorem C5_connect_tcp_outcome (a : Adapter) (linkId : Nat) (remote : SocketAddr)
    (h5 : linkId < a.sockets.length) :
    ((∃ a2, a.connectTcp linkId remote = Outcome.ok () a2) ↔
        (a.txOk = true ∧ ∃ id rest, a.responses = Response.connect id :: rest)) ∧
    (∀ id rest, a.txOk = true → a.responses = Response.connect id :: rest →
        a.connectTcp linkId remote = Outcome.ok ()
          { a with responses := rest,
                   txItems := a.txItems ++
                     [TxItem.cmd (Command.startConnection linkId ConnectionType.tcp remote)],
                   sockets := a.sockets.set linkId
                     { a.sockets[linkId] with state := SocketState.connected } }) ∧
    (a.txOk = false →
        a.connectTcp linkId remote = Outcome.err SocketError.unableToOpen a) ∧
    (∀ r rest, a.txOk = true → a.responses = r :: rest →
        (∀ id, r ≠ Response.connect id) →
        a.connectTcp linkId remote = Outcome.err SocketError.unableToOpen
          { a with responses := rest,
                   txItems := a.txItems ++
                     [TxItem.cmd (Command.startConnection linkId ConnectionType.tcp remote)] }) := by
  refine ⟨⟨?_, ?_⟩, fun id rest htx hr => connectTcp_connect h5 htx hr,
    fun htx => connectTcp_noTx htx,
    fun r rest htx hr hne => connectTcp_other htx hr hne⟩
  · rintro ⟨a2, heq⟩
    cases htx : a.txOk with
    | false => rw [connectTcp_noTx htx] at heq; simp at heq
    | true =>
        cases hr : a.responses with
        | nil => rw [connectTcp_stall htx hr] at heq; simp at heq
        | cons r rest =>
            refine ⟨rfl, ?_⟩
            cases r
            case connect id => exact ⟨id, rest, rfl⟩
            all_goals (rw [connectTcp_other htx hr (by simp)] at heq; simp at heq)
  · rintro ⟨htx, id, rest, hr⟩
    exact ⟨_, connectTcp_connect h5 htx hr⟩

/-- Witness for C5 at a concrete input: a `Connect(3)` reply makes
`connect_tcp(3, ..)` succeed. -/
theorem C5_witness :
    ∃ a2, Adapter.connectTcp (freshAdapter [Response.connect 3] []) 3 9 =
      Outcome.ok () a2 := by
  have h := C5_connect_tcp_outcome (freshAdapter [Response.connect 3] []) 3 9 (by decide)
  exact h.1.mpr ⟨rfl, 3, [], rfl⟩

/-- C9: in the banner wait loop, a `WouldBlock` read is retried without
touching the failure counter; a read failure increments the counter while it
is still within the 10,000 budget; a read failure observed while the counter
already exceeds 10,000 returns the initialization error; and runs containing
no read failure never return the initialization error. -/
theorem C9_banner_failure_budget :
    (∀ (acc : List Nat) (counter : Nat) (rest : List RxEvent),
        bannerRun acc counter (RxEvent.wouldBlock :: rest) =
          bannerRun acc counter rest) ∧
    (∀ (acc : List Nat) (counter : Nat) (rest : List RxEvent), counter ≤ 10000 →
        bannerRun acc counter (RxEvent.fail :: rest) =
          bannerRun acc (counter + 1) rest) ∧
    (∀ (acc : List Nat) (counter : Nat) (rest : List RxEvent), counter > 10000 →
        bannerRun acc counter (RxEvent.fail :: rest) = BannerOut.failedInit) ∧
    (∀ events : List RxEvent, (∀ e ∈ events, e ≠ RxEvent.fail) →
        ∀ (acc : List Nat) (counter : Nat),
          bannerRun acc counter events ≠ BannerOut.failedInit) := by
  refine ⟨fun acc counter rest => rfl, fun acc counter rest h => ?_,
    fun acc counter rest h => ?_, fun events h acc counter => bannerRun_noFail h⟩
  · simp only [bannerRun]
    rw [if_neg (by omega)]
  · simp only [bannerRun]
    rw [if_pos h]

/-- Witness for C9 at concrete inputs: a would-block retry, an in-budget
failure, an over-budget failure, and a failure-free run. -/
theorem C9_witness :
    bannerRun [] 0 [RxEvent.wouldBlock] = bannerRun [] 0 [] ∧
    bannerRun [] 0 [RxEvent.fail] = bannerRun [] 1 [] ∧
    bannerRun [] 10001 [RxEvent.fail] = BannerOut.failedInit ∧
    bannerRun [] 0 [RxEvent.byte 114] ≠ BannerOut.failedInit := by
  have h := C9_banner_failure_budget
  exact ⟨h.1 [] 0 [], h.2.1 [] 0 [] (by decide), h.2.2.1 [] 10001 [] (by decide),
    h.2.2.2 [RxEvent.byte 114] (by decide) [] 0⟩

/-- C3: after draining notifications, `write(link_id, buffer)` succeeds with
accepted length `n` exactly when the reply sequence it observes is
`Ok, ReadyForData, SendOk(n)`; a transmitter failure or a wrong variant at
any of the three steps yields `WriteError`, and when the deviation happens
at step one or two (before `ReadyForData`) the transmitter log gains only the
`Send` command — the payload bytes are never transmitted (they are streamed
only after `ReadyForData`, as the step-three equation shows). -/
theorem C3_write_reply_sequence (a a1 : Adapter) (linkId : Nat) (buffer : List Nat)
    (hpn : processNotifications a = some a1) :
    ((∀ n : Nat, (∃ a2, a.write linkId buffer = Outcome.ok n a2) ↔
        (a1.txOk = true ∧ ∃ rest, a1.responses =
          Response.ok :: Response.readyForData :: Response.sendOk n :: rest)) ∧
     (a1.txOk = false →
        a.write linkId buffer = Outcome.err SocketError.writeError a1) ∧
     (∀ r rest, a1.txOk = true → a1.responses = r :: rest → r ≠ Response.ok →
        a.write linkId buffer = Outcome.err SocketError.writeError
          { a1 with responses := rest,
                    txItems := a1.txItems ++
                      [TxItem.cmd (Command.send linkId buffer.length)] }) ∧
     (∀ r2 rest, a1.txOk = true → a1.responses = Response.ok :: r2 :: rest →
        r2 ≠ Response.readyForData →
        a.write linkId buffer = Outcome.err SocketError.writeError
          { a1 with responses := rest,
                    txItems := a1.txItems ++
                      [TxItem.cmd (Command.send linkId buffer.length)] }) ∧
     (∀ r3 rest, a1.txOk = true →
        a1.responses = Response.ok :: Response.readyForData :: r3 :: rest →
        (∀ m, r3 ≠ Response.sendOk m) →
        a.write linkId buffer = Outcome.err SocketError.writeError
          { a1 with responses := rest,
                    txItems := (a1.txItems ++
                      [TxItem.cmd (Command.send linkId buffer.length)]) ++
                      buffer.map TxItem.dataByte })) := by
  refine ⟨fun n => ⟨?_, ?_⟩,
    fun htx => write_noTx hpn htx,
    fun r rest htx hr hne => write_step1_dev hpn htx hr hne,
    fun r2 rest htx hr hne => write_step2_dev hpn htx hr hne,
    fun r3 rest htx hr hne => write_step3_dev hpn htx hr hne⟩
  · rintro ⟨a2, heq⟩
    cases htx : a1.txOk with
    | false => rw [write_noTx hpn htx] at heq; simp at heq
    | true =>
        refine ⟨rfl, ?_⟩
        cases hr : a1.responses with
        | nil => rw [write_stall1 hpn htx hr] at heq; simp at heq
        | cons r rest =>
            cases r
            case ok =>
              cases rest with
              | nil => rw [write_stall2 hpn htx hr] at heq; simp at heq
              | cons r2 rest2 =>
                  cases r2
                  case readyForData =>
                    cases rest2 with
                    | nil => rw [write_stall3 hpn htx hr] at heq; simp at heq
                    | cons r3 rest3 =>
                        cases r3
                        case sendOk m =>
                          rw [write_full_ok hpn htx hr] at heq
                          injection heq with h1 h2
                          subst h1
                          exact ⟨rest3, rfl⟩
                        all_goals
                          (rw [write_step3_dev hpn htx hr (by simp)] at heq;
                            simp at heq)
                  all_goals
                    (rw [write_step2_dev hpn htx hr (by simp)] at heq; simp at heq)
            all_goals
              (rw [write_step1_dev hpn htx hr (by simp)] at heq; simp at heq)
  · rintro ⟨htx, rest, hr⟩
    exact ⟨_, write_full_ok hpn htx hr⟩

/-- Witness for C3 at a concrete input: the exact reply sequence
`Ok, ReadyForData, SendOk(1)` makes `write` return 1; substituting `Ok` for
`ReadyForData` at step two fails with `WriteError` and transmits no payload
byte. -/
theorem C3_witness :
    (∃ a2, Adapter.write
        (freshAdapter [Response.ok, Response.readyForData, Response.sendOk 1] [])
        0 [9] = Outcome.ok 1 a2) ∧
    Adapter.write (freshAdapter [Response.ok, Response.ok, Response.sendOk 1] [])
        0 [9] = Outcome.err SocketError.writeError
      ⟨true, [TxItem.cmd (Command.send 0 1)], [Response.sendOk 1], [], initSockets⟩ := by
  constructor
  · exact ((C3_write_reply_sequence
      (freshAdapter [Response.ok, Response.readyForData, Response.sendOk 1] [])
      (freshAdapter [Response.ok, Response.readyForData, Response.sendOk 1] [])
      0 [9] rfl).1 1).mpr ⟨rfl, [], rfl⟩
  · have h := (C3_write_reply_sequence
      (freshAdapter [Response.ok, Response.ok, Response.sendOk 1] [])
      (freshAdapter [Response.ok, Response.ok, Response.sendOk 1] [])
      0 [9] rfl).2.2.2.1 Response.ok [Response.sendOk 1] rfl rfl (by decide)
    exact h.trans (by decide)

/-- C4: for an in-range `link_id` (0..4 on the five-slot table), `read`,
after draining notifications, checks its preconditions in order: a `Closed`
slot fails with `SocketNotOpen` regardless of `available`; a `HalfClosed`
slot with `available = 0` fails with `SocketNotOpen`; `available = 0` in the
remaining states (`Open`/`Connected`) reports would-block; only otherwise
does it issue a `Receive` command sized to the caller's buffer capacity. -/
theorem C4_read_precondition_order (a a1 : Adapter) (linkId : Nat) (buffer : List Nat)
    (hpn : processNotifications a = some a1) (h5 : linkId < a1.sockets.length) :
    (a1.sockets[linkId].state = SocketState.closed →
        a.read linkId buffer = Outcome.err SocketError.socketNotOpen a1) ∧
    (a1.sockets[linkId].state = SocketState.halfClosed →
      a1.sockets[linkId].available = 0 →
        a.read linkId buffer = Outcome.err SocketError.socketNotOpen a1) ∧
    ((a1.sockets[linkId].state = SocketState.opened ∨
      a1.sockets[linkId].state = SocketState.connected) →
      a1.sockets[linkId].available = 0 →
        a.read linkId buffer = Outcome.wouldBlock a1) ∧
    (∀ r rest, a1.sockets[linkId].state ≠ SocketState.closed →
        a1.sockets[linkId].available ≠ 0 →
        a1.txOk = true → a1.responses = r :: rest →
        (∀ bs n, r ≠ Response.dataReceived bs n) →
        a.read linkId buffer = Outcome.err SocketError.readError
          { a1 with responses := rest,
                    txItems := a1.txItems ++
                      [TxItem.cmd (Command.receive linkId buffer.length)] }) :=
  ⟨fun hst => read_closed hpn h5 hst,
   fun hst hav => read_halfClosed0 hpn h5 hst hav,
   fun hst hav => read_wouldBlock hpn h5 hst hav,
   fun _ _ hst hav htx hr hne => read_other hpn h5 hst hav htx hr hne⟩

/-- Witness for C4 at concrete inputs: a fresh (all-`Closed`) adapter fails
with `SocketNotOpen` on slot 0, and an `Open` slot with nothing buffered
reports would-block. -/
theorem C4_witness :
    Adapter.read (freshAdapter [] []) 0 [0] =
      Outcome.err SocketError.socketNotOpen (freshAdapter [] []) ∧
    Adapter.read
      ⟨true, [], [], [],
       [⟨SocketState.opened, 0⟩, ⟨SocketState.closed, 0⟩, ⟨SocketState.closed, 0⟩,
        ⟨SocketState.closed, 0⟩, ⟨SocketState.closed, 0⟩]⟩ 0 [0] =
      Outcome.wouldBlock
      ⟨true, [], [], [],
       [⟨SocketState.opened, 0⟩, ⟨SocketState.closed, 0⟩, ⟨SocketState.closed, 0⟩,
        ⟨SocketState.closed, 0⟩, ⟨SocketState.closed, 0⟩]⟩ := by
  constructor
  · exact (C4_read_precondition_order (freshAdapter [] []) (freshAdapter [] [])
      0 [0] rfl (by decide)).1 (by decide)
  · exact (C4_read_precondition_order
      ⟨true, [], [], [],
       [⟨SocketState.opened, 0⟩, ⟨SocketState.closed, 0⟩, ⟨SocketState.closed, 0⟩,
        ⟨SocketState.closed, 0⟩, ⟨SocketState.closed, 0⟩]⟩
      ⟨true, [], [], [],
       [⟨SocketState.opened, 0⟩, ⟨SocketState.closed, 0⟩, ⟨SocketState.closed, 0⟩,
        ⟨SocketState.closed, 0⟩, ⟨SocketState.closed, 0⟩]⟩
      0 [0] rfl (by decide)).2.2.1 (Or.inl (by decide)) (by decide)

/-- Counterexample for C7 as literally stated: starting from a FRESH slot 2
(which is `Closed` with `available = 0` by construction), queuing
`DataAvailable{2, 10}` and a `DataReceived(buf, 10)` reply and calling
`read(2, ..)` does NOT return 10: the drain raises `available` to 10 but the
slot is still `Closed`, so `read` fails with `SocketNotOpen` — and leaves
`available = 10`, not 0 (visible in `c7Drained`). -/
theorem C7_fresh_slot_read_fails :
    Adapter.read c7Fresh 2 c7Caller =
      Outcome.err SocketError.socketNotOpen c7Drained := by
  decide

/-- C7 (amended: the slot must have been opened — e.g. slot 2 in `Open`
state with `available = 0` — for `read` to proceed; a fresh slot is `Closed`
and `read` fails on it, as the counterexample shows): queuing
`DataAvailable{2, 10}` and then calling `read` on slot 2 with a
`DataReceived(buf, 10)` reply returns 10, leaves `available = 0` on slot 2,
and copies exactly the first 10 bytes of `buf` into the caller's buffer
(the rest of the caller's buffer is untouched). -/
theorem C7_roundTrip_available (buf caller : List Nat) (rest : List Response)
    (s0 s1 s3 s4 : Socket) (hb : 10 ≤ buf.length) (hc : 10 ≤ caller.length) :
    Adapter.read
      ⟨true, [], Response.dataReceived buf 10 :: rest,
       [Response.dataAvailable 2 10], [s0, s1, ⟨SocketState.opened, 0⟩, s3, s4]⟩
      2 caller =
    Outcome.ok (10, buf.take 10 ++ caller.drop 10)
      ⟨true, [TxItem.cmd (Command.receive 2 caller.length)], rest, [],
       [s0, s1, ⟨SocketState.opened, 0⟩, s3, s4]⟩ := by
  have hpn : processNotifications
      ⟨true, [], Response.dataReceived buf 10 :: rest,
       [Response.dataAvailable 2 10], [s0, s1, ⟨SocketState.opened, 0⟩, s3, s4]⟩ =
      some ⟨true, [], Response.dataReceived buf 10 :: rest, [],
        [s0, s1, ⟨SocketState.opened, 10⟩, s3, s4]⟩ := rfl
  have h := @read_data_ok
    ⟨true, [], Response.dataReceived buf 10 :: rest,
     [Response.dataAvailable 2 10], [s0, s1, ⟨SocketState.opened, 0⟩, s3, s4]⟩
    ⟨true, [], Response.dataReceived buf 10 :: rest, [],
     [s0, s1, ⟨SocketState.opened, 10⟩, s3, s4]⟩
    2 caller buf 10 rest hpn (by simp) (by simp) (by simp) rfl rfl hb hc
    (by simp)
  exact h.trans (by simp [List.set])

/-- Witness for C7 at a concrete input: ten known bytes and a 12-byte
caller buffer. -/
theorem C7_witness :
    Adapter.read
      ⟨true, [], [Response.dataReceived c7Buf 10], [Response.dataAvailable 2 10],
       [⟨SocketState.closed, 0⟩, ⟨SocketState.closed, 0⟩, ⟨SocketState.opened, 0⟩,
        ⟨SocketState.closed, 0⟩, ⟨SocketState.closed, 0⟩]⟩ 2 c7Caller =
    Outcome.ok (10, c7Buf.take 10 ++ c7Caller.drop 10)
      ⟨true, [TxItem.cmd (Command.receive 2 c7Caller.length)], [], [],
       [⟨SocketState.closed, 0⟩, ⟨SocketState.closed, 0⟩, ⟨SocketState.opened, 0⟩,
        ⟨SocketState.closed, 0⟩, ⟨SocketState.closed, 0⟩]⟩ :=
  C7_roundTrip_available c7Buf c7Caller [] ⟨SocketState.closed, 0⟩
    ⟨SocketState.closed, 0⟩ ⟨SocketState.closed, 0⟩ ⟨SocketState.closed, 0⟩
    (by decide) (by decide)

/-- Counterexample for C2 as stated: the claim quantifies over ANY link_id
argument, but `close(5)` on a fresh adapter indexes `sockets[5]` out of
bounds — a panic-level condition, not a value, would-block, or typed
error. -/
theorem C2_close_out_of_range_panics :
    Adapter.close (freshAdapter [] []) 5 = Outcome.panic := by
  decide

/-- C2 (amended: the operations are panic-free only under the in-range and
well-formed-reply preconditions the source implicitly assumes): `open` never
panics; `close` and `connect_tcp` never panic for an in-range `link_id`;
`write` never panics when every queued notification's link id is in range
for the socket table; and `read` never panics when additionally the caller's
`link_id` is in range and a `DataReceived(inbound, len)` reply at the head
of the response queue satisfies `len ≤ inbound.length`,
`len ≤ buffer.length` and `len ≤` the slot's post-drain `available` (the
operations may still block forever on an empty reply queue, `Outcome.stall`,
which is the documented liveness hazard, not a panic). -/
theorem C2_no_panic_under_preconditions :
    (∀ a : Adapter, a.openSocket ≠ Outcome.panic) ∧
    (∀ (a : Adapter) (linkId : Nat), linkId < a.sockets.length →
        a.close linkId ≠ Outcome.panic) ∧
    (∀ (a : Adapter) (linkId : Nat) (remote : SocketAddr),
        linkId < a.sockets.length →
        a.connectTcp linkId remote ≠ Outcome.panic) ∧
    (∀ (a : Adapter) (linkId : Nat) (buffer : List Nat), notesOk a = true →
        a.write linkId buffer ≠ Outcome.panic) ∧
    (∀ (a : Adapter) (linkId : Nat) (buffer : List Nat), notesOk a = true →
        linkId < a.sockets.length → readReplySafe a linkId buffer = true →
        a.read linkId buffer ≠ Outcome.panic) := by
  refine ⟨fun a => openSocket_no_panic, ?_, ?_, ?_, ?_⟩
  · intro a linkId h5
    rw [close_inBounds h5]
    simp
  · intro a linkId remote h5
    cases htx : a.txOk with
    | false => rw [connectTcp_noTx htx]; simp
    | true =>
        cases hr : a.responses with
        | nil => rw [connectTcp_stall htx hr]; simp
        | cons r rest =>
            cases r
            case connect id => rw [connectTcp_connect h5 htx hr]; simp
            all_goals (rw [connectTcp_other htx hr (by simp)]; simp)
  · intro a linkId buffer hnotes
    obtain ⟨a1, hpn⟩ := processNotifications_some hnotes
    cases htx : a1.txOk with
    | false => rw [write_noTx hpn htx]; simp
    | true =>
        cases hr : a1.responses with
        | nil => rw [write_stall1 hpn htx hr]; simp
        | cons r rest =>
            cases r
            case ok =>
              cases rest with
              | nil => rw [write_stall2 hpn htx hr]; simp
              | cons r2 rest2 =>
                  cases r2
                  case readyForData =>
                    cases rest2 with
                    | nil => rw [write_stall3 hpn htx hr]; simp
                    | cons r3 rest3 =>
                        cases r3
                        case sendOk m => rw [write_full_ok hpn htx hr]; simp
                        all_goals (rw [write_step3_dev hpn htx hr (by simp)]; simp)
                  all_goals (rw [write_step2_dev hpn htx hr (by simp)]; simp)
            all_goals (rw [write_step1_dev hpn htx hr (by simp)]; simp)
  · intro a linkId buffer hnotes h5a hsafe
    obtain ⟨a1, hpn⟩ := processNotifications_some hnotes
    obtain ⟨hd, heq⟩ := processNotifications_eq hpn
    have hlen : a1.sockets.length = a.sockets.length := drainNotes_length hd
    have h5 : linkId < a1.sockets.length := by rw [hlen]; exact h5a
    have hresp : a.responses = a1.responses := by rw [heq]
    by_cases hst : a1.sockets[linkId].state = SocketState.closed
    · rw [read_closed hpn h5 hst]; simp
    · by_cases hav : a1.sockets[linkId].available = 0
      · cases hstate : a1.sockets[linkId].state with
        | closed => exact absurd hstate hst
        | halfClosed => rw [read_halfClosed0 hpn h5 hstate hav]; simp
        | opened => rw [read_wouldBlock hpn h5 (Or.inl hstate) hav]; simp
        | connected => rw [read_wouldBlock hpn h5 (Or.inr hstate) hav]; simp
      · cases htx : a1.txOk with
        | false => rw [read_noTx hpn h5 hst hav htx]; simp
        | true =>
            cases hr : a1.responses with
            | nil => rw [read_stall hpn h5 hst hav htx hr]; simp
            | cons r rest =>
                cases r
                pick_goal 10
                · rename_i inbound len
                  have hra : a.responses = Response.dataReceived inbound len :: rest :=
                    hresp.trans hr
                  have hget : a1.sockets.get? linkId = some a1.sockets[linkId] := by
                    simp [List.get?_eq_getElem?, List.getElem?_eq_getElem h5]
                  simp only [readReplySafe, hra, hd, hget, Bool.and_eq_true,
                    decide_eq_true_eq] at hsafe
                  obtain ⟨⟨hl1, hl2⟩, hl3⟩ := hsafe
                  rw [read_data_ok hpn h5 hst hav htx hr hl1 hl2 hl3]
                  simp
                all_goals (rw [read_other hpn h5 hst hav htx hr (by simp)]; simp)

/-- Witness for C2 at concrete inputs: each operation, run on an adapter
satisfying the preconditions, does not panic. -/
theorem C2_witness :
    Adapter.openSocket (freshAdapter [] []) ≠ Outcome.panic ∧
    Adapter.close (freshAdapter [] []) 4 ≠ Outcome.panic ∧
    Adapter.connectTcp (freshAdapter [] []) 4 9 ≠ Outcome.panic ∧
    Adapter.write (freshAdapter [] [Response.dataAvailable 4 2]) 0 [1] ≠ Outcome.panic ∧
    Adapter.read (freshAdapter [Response.dataReceived [7] 1]
      [Response.dataAvailable 0 1]) 0 [0, 0] ≠ Outcome.panic := by
  have h := C2_no_panic_under_preconditions
  exact ⟨h.1 _, h.2.1 _ _ (by decide), h.2.2.1 _ _ _ (by decide),
    h.2.2.2.1 _ _ _ (by decide),
    h.2.2.2.2 _ _ _ (by decide) (by decide) (by decide)⟩

/-- Witness for C6 at concrete inputs: a `Closed(1)` notification on an
all-`Closed` table is a no-op, and two `Closed(0)` notifications on an
`Open` slot 0 leave it `Closed` (its `available` untouched). -/
theorem C6_witness :
    procNote initSockets (Response.closed 1) = some initSockets ∧
    drainNotes
      [⟨SocketState.opened, 3⟩, ⟨SocketState.closed, 0⟩, ⟨SocketState.closed, 0⟩,
       ⟨SocketState.closed, 0⟩, ⟨SocketState.closed, 0⟩]
      [Response.closed 0, Response.closed 0] =
    some [⟨SocketState.closed, 3⟩, ⟨SocketState.closed, 0⟩, ⟨SocketState.closed, 0⟩,
          ⟨SocketState.closed, 0⟩, ⟨SocketState.closed, 0⟩] := by
  constructor
  · exact (C6_closed_transition_table initSockets 1 (by decide)).2.2.1 (by decide)
  · have h := (C6_closed_transition_table
      [⟨SocketState.opened, 3⟩, ⟨SocketState.closed, 0⟩, ⟨SocketState.closed, 0⟩,
       ⟨SocketState.closed, 0⟩, ⟨SocketState.closed, 0⟩] 0 (by decide)).2.2.2
      (Or.inl (by decide))
    exact h.trans (by decide)
